import Mathlib

/-!
# Resource factory of the Apicurio Registry operator

A shallow embedding of `controllers/svc/factory/factory_kube.go` and the
properties of its descriptor constructors.

Conventions of the embedding.

* A Go `panic` is an `Except.error`; a method that may panic returns
  `Except Panic _`.
* The process environment (`os.Getenv`) is the explicit argument `getenv`.
* `resource.ParseQuantity` belongs to the Kubernetes API machinery, not to this
  repository: it is the explicit argument `parse`, with `none` for a returned
  error.  The quantity type `Q` and the volume source type `VS` are type
  parameters for the same reason.
* A Go `map[string]string` built by a composite literal is the association
  list of the literal; maps are compared through `List.lookup`.
* A Go slice is a list (a nil slice is the empty list); a pointer field is an
  `Option`.
-/

set_option linter.dupNamespace false

namespace factory

/-! ## Panics -/

/-- The ways the factory can abort. -/
inductive Panic where
  /-- An explicit `panic(msg)` of the source. -/
  | explicit (msg : String)
  /-- The Go runtime error "assignment to entry in nil map". -/
  | nilMapAssignment
  /-- The abort of `resource.MustParse` on a string that does not parse. -/
  | mustParse (str : String)
  deriving DecidableEq, Repr

/-- Whether a computation aborted. -/
def panics {α : Type} : Except Panic α → Bool
  | .error _ => true
  | .ok _ => false

/-! ## Kubernetes object shapes (the fields the factory sets) -/

/-- A Go `map[string]string`, as the association list of its literal. -/
abbrev StringMap := List (String × String)

/-- The key type of `core.ResourceList`. -/
abbrev ResourceName := String

/-- The constant `core.ResourceCPU`. -/
def ResourceCPU : ResourceName := "cpu"

/-- The constant `core.ResourceMemory`. -/
def ResourceMemory : ResourceName := "memory"

/-- A `core.ResourceList`, a Go map from resource names to quantities: `none` is the nil map
(readable as empty, not assignable), `some l` an allocated map with entries `l`. -/
abbrev ResourceList (Q : Type) := Option (List (ResourceName × Q))

/-- Reading a resource list at a key; a nil map reads as empty. -/
def ResourceList.get {Q : Type} (m : ResourceList Q) (name : ResourceName) : Option Q :=
  match m with
  | none => none
  | some l => l.lookup name

/-- The Go statement `m[name] = q`: a runtime panic on the nil map, otherwise the entry for
`name` is added or replaced. -/
def mapAssign {Q : Type} (m : ResourceList Q) (name : ResourceName) (q : Q) :
    Except Panic (ResourceList Q) :=
  match m with
  | none => .error .nilMapAssignment
  | some l => .ok (some ((name, q) :: l.filter (fun e => e.1 != name)))

/-- The function `resource.MustParse`: the parsed quantity, or a panic when the string does not
parse. -/
def MustParse {Q : Type} (parse : String → Option Q) (str : String) : Except Panic Q :=
  match parse str with
  | some q => .ok q
  | none => .error (.mustParse str)

/-- The type `meta.ObjectMeta`. -/
structure ObjectMeta where
  Name : String := ""
  Namespace : String := ""
  Labels : StringMap := []
  Annotations : StringMap := []
  deriving DecidableEq, Repr

/-- The type `meta.LabelSelector`. -/
structure LabelSelector where
  MatchLabels : StringMap
  deriving DecidableEq, Repr

/-- The type `intstr.IntOrString`; `Type_` is its field `Type`, 0 for `intstr.Int`. -/
structure IntOrString where
  Type_ : Int := 0
  IntVal : Int := 0
  StrVal : String := ""
  deriving DecidableEq, Repr

/-- The constant `intstr.Int`. -/
def intstr_Int : Int := 0

/-- The function `intstr.FromInt`. -/
def intstr_FromInt (val : Int) : IntOrString :=
  { Type_ := intstr_Int, IntVal := val }

/-- The type `core.Volume`. -/
structure Volume (VS : Type) where
  Name : String
  VolumeSource : VS
  deriving DecidableEq, Repr

/-- The type `core.VolumeMount`. -/
structure VolumeMount where
  Name : String
  ReadOnly : Bool
  MountPath : String
  SubPath : String
  MountPropagation : Option String
  SubPathExpr : String
  deriving DecidableEq, Repr

/-- The type `core.ContainerPort`. -/
structure ContainerPort where
  ContainerPort : Int
  Protocol : String
  deriving DecidableEq, Repr

/-- The type `core.EnvVar`. -/
structure EnvVar where
  Name : String
  Value : String
  deriving DecidableEq, Repr

/-- The type `core.ResourceRequirements`. -/
structure ResourceRequirements (Q : Type) where
  Limits : ResourceList Q
  Requests : ResourceList Q
  deriving DecidableEq, Repr

/-- The type `core.HTTPGetAction`. -/
structure HTTPGetAction where
  Path : String
  Port : IntOrString
  deriving DecidableEq, Repr

/-- The type `core.Handler`. -/
structure Handler where
  HTTPGet : Option HTTPGetAction
  deriving DecidableEq, Repr

/-- The type `core.Probe`. -/
structure Probe where
  Handler : Handler
  InitialDelaySeconds : Int
  TimeoutSeconds : Int
  PeriodSeconds : Int
  SuccessThreshold : Int
  FailureThreshold : Int
  deriving DecidableEq, Repr

/-- The type `core.Container`. -/
structure Container (Q : Type) where
  Name : String
  Image : String
  Ports : List ContainerPort
  Env : List EnvVar
  Resources : ResourceRequirements Q
  LivenessProbe : Option Probe
  ReadinessProbe : Option Probe
  TerminationMessagePath : String
  ImagePullPolicy : String
  VolumeMounts : List VolumeMount
  deriving DecidableEq, Repr

/-- The type `core.PodSpec`. -/
structure PodSpec (VS Q : Type) where
  Containers : List (Container Q)
  RestartPolicy : String
  TerminationGracePeriodSeconds : Option Int
  DNSPolicy : String
  Volumes : List (Volume VS)
  deriving DecidableEq, Repr

/-- The type `core.PodTemplateSpec`. -/
structure PodTemplateSpec (VS Q : Type) where
  ObjectMeta : ObjectMeta
  Spec : PodSpec VS Q
  deriving DecidableEq, Repr

/-- The type `apps.RollingUpdateDeployment`. -/
structure RollingUpdateDeployment where
  MaxUnavailable : Option IntOrString
  MaxSurge : Option IntOrString
  deriving DecidableEq, Repr

/-- The type `apps.DeploymentStrategy`. -/
structure DeploymentStrategy where
  Type_ : String
  RollingUpdate : Option RollingUpdateDeployment
  deriving DecidableEq, Repr

/-- The type `apps.DeploymentSpec`. -/
structure DeploymentSpec (VS Q : Type) where
  Replicas : Option Int
  Selector : Option LabelSelector
  Template : PodTemplateSpec VS Q
  Strategy : DeploymentStrategy
  deriving DecidableEq, Repr

/-- The type `apps.Deployment`. -/
structure Deployment (VS Q : Type) where
  ObjectMeta : ObjectMeta
  Spec : DeploymentSpec VS Q
  deriving DecidableEq, Repr

/-- The type `core.ServicePort`. -/
structure ServicePort where
  Protocol : String
  Port : Int
  TargetPort : IntOrString
  deriving DecidableEq, Repr

/-- The type `core.ServiceSpec`. -/
structure ServiceSpec where
  Ports : List ServicePort
  Selector : StringMap
  Type_ : String
  SessionAffinity : String
  deriving DecidableEq, Repr

/-- The type `core.Service`. -/
structure Service where
  ObjectMeta : ObjectMeta
  Spec : ServiceSpec
  deriving DecidableEq, Repr

/-- The type `networking.ServiceBackendPort`. -/
structure ServiceBackendPort where
  Name : String := ""
  Number : Int := 0
  deriving DecidableEq, Repr

/-- The type `networking.IngressServiceBackend`. -/
structure IngressServiceBackend where
  Name : String
  Port : ServiceBackendPort
  deriving DecidableEq, Repr

/-- The type `networking.IngressBackend`. -/
structure IngressBackend where
  Service : Option IngressServiceBackend
  deriving DecidableEq, Repr

/-- The type `networking.HTTPIngressPath`. -/
structure HTTPIngressPath where
  Path : String
  PathType : Option String
  Backend : IngressBackend
  deriving DecidableEq, Repr

/-- The type `networking.HTTPIngressRuleValue`. -/
structure HTTPIngressRuleValue where
  Paths : List HTTPIngressPath
  deriving DecidableEq, Repr

/-- The type `networking.IngressRuleValue`. -/
structure IngressRuleValue where
  HTTP : Option HTTPIngressRuleValue
  deriving DecidableEq, Repr

/-- The type `networking.IngressRule`. -/
structure IngressRule where
  Host : String
  IngressRuleValue : IngressRuleValue
  deriving DecidableEq, Repr

/-- The type `networking.IngressSpec`. -/
structure IngressSpec where
  Rules : List IngressRule
  deriving DecidableEq, Repr

/-- The type `networking.Ingress`. -/
structure Ingress where
  ObjectMeta : ObjectMeta
  Spec : IngressSpec
  deriving DecidableEq, Repr

/-- The type `policy.PodDisruptionBudgetSpec`. -/
structure PodDisruptionBudgetSpec where
  Selector : Option LabelSelector
  MaxUnavailable : Option IntOrString
  deriving DecidableEq, Repr

/-- The type `policy.PodDisruptionBudget`. -/
structure PodDisruptionBudget where
  ObjectMeta : ObjectMeta
  Spec : PodDisruptionBudgetSpec
  deriving DecidableEq, Repr

/-- The constant `core.ProtocolTCP`. -/
def ProtocolTCP : String := "TCP"

/-- The constant `core.PullAlways`. -/
def PullAlways : String := "Always"

/-- The constant `core.RestartPolicyAlways`. -/
def RestartPolicyAlways : String := "Always"

/-- The constant `core.DNSClusterFirst`. -/
def DNSClusterFirst : String := "ClusterFirst"

/-- The constant `core.ServiceTypeClusterIP`. -/
def ServiceTypeClusterIP : String := "ClusterIP"

/-- The constant `core.ServiceAffinityNone`. -/
def ServiceAffinityNone : String := "None"

/-- The constant `apps.RollingUpdateDeploymentStrategyType`. -/
def RollingUpdateDeploymentStrategyType : String := "RollingUpdate"

/-- The constant `networking.PathTypePrefix`. -/
def PathTypePrefix : String := "Prefix"

/-! ## The custom resource and the loop context -/

/-- Modelled from the spec: a limit and a request "expressed as quantity strings"; the type of
`spec.Spec.Deployment.Resources.Cpu` and `.Memory` (package `api/v1` is not among the sources). -/
structure ApicurioRegistrySpecDeploymentResourcesRequirements where
  Limit : String
  Request : String
  deriving DecidableEq, Repr

/-- Modelled from the spec: "resource sizing for CPU and memory"; the type of
`spec.Spec.Deployment.Resources`. -/
structure ApicurioRegistrySpecDeploymentResources where
  Cpu : ApicurioRegistrySpecDeploymentResourcesRequirements
  Memory : ApicurioRegistrySpecDeploymentResourcesRequirements
  deriving DecidableEq, Repr

/-- Modelled from the spec: an entry of the "list of extra volume mounts", with the fields the
factory reads from it. -/
structure ApicurioRegistrySpecDeploymentVolume (VS : Type) where
  Name : String
  VolumeSource : VS
  ReadOnly : Bool
  MountPath : String
  SubPath : String
  MountPropagation : Option String
  SubPathExpr : String
  deriving DecidableEq, Repr

/-- Modelled from the spec: the type of `spec.Spec.Deployment`. -/
structure ApicurioRegistrySpecDeployment (VS : Type) where
  Volumes : List (ApicurioRegistrySpecDeploymentVolume VS)
  Resources : ApicurioRegistrySpecDeploymentResources
  deriving DecidableEq, Repr

/-- Modelled from the spec: the type of `spec.Spec`. -/
structure ApicurioRegistrySpec (VS : Type) where
  Deployment : ApicurioRegistrySpecDeployment VS
  deriving DecidableEq, Repr

/-- Modelled from the spec: the custom resource `ar.ApicurioRegistry`, "the declarative
configuration for one managed target". -/
structure ApicurioRegistry (VS : Type) where
  Spec : ApicurioRegistrySpec VS
  deriving DecidableEq, Repr

/-- Modelled from the spec: the resource cache, "consumed here as a simple keyed lookup"
`get(key) -> (value, present)`.  The factory reads one key, `resources.RC_KEY_SPEC`, and asserts
its value to be the custom resource; `GetSpec` is that lookup, `none` when the key has no
entry. -/
structure ResourceCache (VS : Type) where
  GetSpec : Option (ApicurioRegistry VS)
  deriving DecidableEq, Repr

/-- Modelled from the spec: the loop context, which "holds `appName` (string identifier),
`appNamespace` (string identifier), a resource cache" (package `controllers/loop/context` is not
among the sources).  `GetAppName` and `GetAppNamespace` are the strings `GetAppName().Str()`
and `GetAppNamespace().Str()`. -/
structure LoopContext (VS : Type) where
  GetAppName : String
  GetAppNamespace : String
  GetResourceCache : ResourceCache VS
  deriving DecidableEq, Repr

/-! ## The factory -/

/-- The type `KubeFactory`. -/
structure KubeFactory (VS : Type) where
  ctx : LoopContext VS
  deriving DecidableEq, Repr

/-- The constructor `NewKubeFactory`. -/
def NewKubeFactory {VS : Type} (ctx : LoopContext VS) : KubeFactory VS :=
  { ctx := ctx }

/-- The constant `ENV_REGISTRY_VERSION`. -/
def ENV_REGISTRY_VERSION : String := "REGISTRY_VERSION"

/-- The constant `ENV_OPERATOR_NAME`. -/
def ENV_OPERATOR_NAME : String := "OPERATOR_NAME"

/-- The method `KubeFactory.GetLabels`. -/
def GetLabels {VS : Type} (getenv : String → String) (this : KubeFactory VS) :
    Except Panic StringMap :=
  let registryVersion := getenv ENV_REGISTRY_VERSION
  if registryVersion = "" then
    .error (.explicit ("Could not determine registry version. Environment variable '"
      ++ ENV_REGISTRY_VERSION ++ "' is empty."))
  else
    let operatorName := getenv ENV_OPERATOR_NAME
    if operatorName = "" then
      .error (.explicit ("Could not determine operator name. Environment variable '"
        ++ ENV_OPERATOR_NAME ++ "' is empty."))
    else
      let app := this.ctx.GetAppName
      .ok [("app", app),
        ("apicur.io/type", "apicurio-registry"),
        ("apicur.io/name", app),
        ("apicur.io/version", registryVersion),
        ("app.kubernetes.io/name", "apicurio-registry"),
        ("app.kubernetes.io/instance", app),
        ("app.kubernetes.io/version", registryVersion),
        ("app.kubernetes.io/managed-by", operatorName)]

/-- The method `KubeFactory.GetSelectorLabels`.  It does not read the environment; `getenv` is
passed like to every other method, so that its independence of it can be stated. -/
def GetSelectorLabels {VS : Type} (_getenv : String → String) (this : KubeFactory VS) :
    StringMap :=
  [("app", this.ctx.GetAppName)]

/-- The method `KubeFactory.createObjectMeta`. -/
def createObjectMeta {VS : Type} (getenv : String → String) (this : KubeFactory VS)
    (typeTag : String) : Except Panic ObjectMeta := do
  let labels ← GetLabels getenv this
  pure { Name := this.ctx.GetAppName ++ "-" ++ typeTag,
         Namespace := this.ctx.GetAppNamespace,
         Labels := labels }

/-- The loop of `CreateDeployment` over the extra volumes of the spec, from the state
`(vol, volMnt)`: each volume appends one entry to both slices. -/
def appendVolumes {VS : Type} (acc : List (Volume VS) × List VolumeMount)
    (volumes : List (ApicurioRegistrySpecDeploymentVolume VS)) :
    List (Volume VS) × List VolumeMount :=
  volumes.foldl (fun st addVol =>
    (st.1 ++ [{ Name := addVol.Name, VolumeSource := addVol.VolumeSource }],
     st.2 ++ [{ Name := addVol.Name,
                ReadOnly := addVol.ReadOnly,
                MountPath := addVol.MountPath,
                SubPath := addVol.SubPath,
                MountPropagation := addVol.MountPropagation,
                SubPathExpr := addVol.SubPathExpr }])) acc

/-- The quantity string whose parse one block of `CreateDeployment` assigns to its attribute,
if the block assigns at all: nothing for a string that parses and is `"0"`, the string itself
when it parses and is not `"0"`, the string of the default when it does not parse. -/
def quantityToAssign {Q : Type} (parse : String → Option Q) (str dflt : String) :
    Option String :=
  match parse str with
  | some _ => if str ≠ "0" then some str else none
  | none => some dflt

/-- One of the four blocks of `CreateDeployment` that resolve a quantity string `str` of the spec
into the entry `name` of the map `m`:
`_, err := resource.ParseQuantity(str); if err == nil { if str != "0" { m[name] =
resource.MustParse(str) } } else { m[name] = resource.MustParse(dflt) }`. -/
def assignQuantity {Q : Type} (parse : String → Option Q) (m : ResourceList Q)
    (name : ResourceName) (str dflt : String) : Except Panic (ResourceList Q) :=
  match quantityToAssign parse str dflt with
  | none => .ok m
  | some chosen => do
    let q ← MustParse parse chosen
    mapAssign m name q

/-- The `if specExists` part of `CreateDeployment`: from the nil maps and nil slices of the
declarations, the limits, requests, volumes and mounts at the `return`. -/
def resolveSpec {VS Q : Type} (parse : String → Option Q) (this : KubeFactory VS) :
    Except Panic (ResourceList Q × ResourceList Q × List (Volume VS) × List VolumeMount) :=
  let Limits : ResourceList Q := none
  let Requests : ResourceList Q := none
  let vol : List (Volume VS) := []
  let volMnt : List VolumeMount := []
  match this.ctx.GetResourceCache.GetSpec with
  | some spec => do
    let (vol, volMnt) := appendVolumes (vol, volMnt) spec.Spec.Deployment.Volumes
    let Limits ← assignQuantity parse Limits ResourceCPU
      spec.Spec.Deployment.Resources.Cpu.Limit "1"
    let Limits ← assignQuantity parse Limits ResourceMemory
      spec.Spec.Deployment.Resources.Memory.Limit "1280Mi"
    let Requests ← assignQuantity parse Requests ResourceCPU
      spec.Spec.Deployment.Resources.Cpu.Request "500m"
    let Requests ← assignQuantity parse Requests ResourceMemory
      spec.Spec.Deployment.Resources.Memory.Request "512Mi"
    pure (Limits, Requests, vol, volMnt)
  | none => pure (Limits, Requests, vol, volMnt)

/-- The probe of `CreateDeployment` on the health endpoint `path`. -/
def healthProbe (path : String) : Probe :=
  { Handler := { HTTPGet := some { Path := path, Port := intstr_FromInt 8080 } },
    InitialDelaySeconds := 15,
    TimeoutSeconds := 5,
    PeriodSeconds := 10,
    SuccessThreshold := 1,
    FailureThreshold := 3 }

/-- The method `KubeFactory.CreateDeployment`. -/
def CreateDeployment {VS Q : Type} (getenv : String → String) (parse : String → Option Q)
    (this : KubeFactory VS) : Except Panic (Deployment VS Q) := do
  let terminationGracePeriodSeconds : Int := 30
  let replicas : Int := 1
  let (Limits, Requests, vol, volMnt) ← resolveSpec parse this
  let objectMeta ← createObjectMeta getenv this "deployment"
  let selectorLabels := GetSelectorLabels getenv this
  let labels ← GetLabels getenv this
  pure {
    ObjectMeta := objectMeta,
    Spec := {
      Replicas := some replicas,
      Selector := some { MatchLabels := selectorLabels },
      Template := {
        ObjectMeta := { Labels := labels },
        Spec := {
          Containers := [{
            Name := this.ctx.GetAppName,
            Image := "",
            Ports := [{ ContainerPort := 8080, Protocol := "TCP" }],
            Env := [],
            Resources := { Limits := Limits, Requests := Requests },
            LivenessProbe := some (healthProbe "/health/live"),
            ReadinessProbe := some (healthProbe "/health/ready"),
            TerminationMessagePath := "/dev/termination-log",
            ImagePullPolicy := PullAlways,
            VolumeMounts := volMnt }],
          RestartPolicy := RestartPolicyAlways,
          TerminationGracePeriodSeconds := some terminationGracePeriodSeconds,
          DNSPolicy := DNSClusterFirst,
          Volumes := vol } },
      Strategy := {
        Type_ := RollingUpdateDeploymentStrategyType,
        RollingUpdate := some {
          MaxUnavailable := some { Type_ := intstr_Int, IntVal := 1 },
          MaxSurge := some { Type_ := intstr_Int, IntVal := 1 } } } } }

/-- The method `KubeFactory.CreateService`. -/
def CreateService {VS : Type} (getenv : String → String) (this : KubeFactory VS) :
    Except Panic Service := do
  let objectMeta ← createObjectMeta getenv this "service"
  pure {
    ObjectMeta := objectMeta,
    Spec := {
      Ports := [{ Protocol := ProtocolTCP, Port := 8080, TargetPort := intstr_FromInt 8080 }],
      Selector := GetSelectorLabels getenv this,
      Type_ := ServiceTypeClusterIP,
      SessionAffinity := ServiceAffinityNone } }

/-- The method `KubeFactory.CreateIngress`. -/
def CreateIngress {VS : Type} (getenv : String → String) (this : KubeFactory VS)
    (serviceName : String) : Except Panic Ingress :=
  if serviceName = "" then
    .error (.explicit "Required argument.")
  else do
    let metaData ← createObjectMeta getenv this "ingress"
    let metaData := { metaData with Annotations := [
      ("nginx.ingress.kubernetes.io/force-ssl-redirect", "false"),
      ("nginx.ingress.kubernetes.io/rewrite-target", "/"),
      ("nginx.ingress.kubernetes.io/ssl-redirect", "false")] }
    let pathTypePrefix := PathTypePrefix
    pure {
      ObjectMeta := metaData,
      Spec := {
        Rules := [{
          Host := "",
          IngressRuleValue := {
            HTTP := some {
              Paths := [{
                Path := "/",
                PathType := some pathTypePrefix,
                Backend := {
                  Service := some {
                    Name := serviceName,
                    Port := { Number := 8080 } } } }] } } }] } }

/-- The method `KubeFactory.CreatePodDisruptionBudget`. -/
def CreatePodDisruptionBudget {VS : Type} (getenv : String → String) (this : KubeFactory VS) :
    Except Panic PodDisruptionBudget := do
  let objectMeta ← createObjectMeta getenv this "pdb"
  pure {
    ObjectMeta := objectMeta,
    Spec := {
      Selector := some { MatchLabels := GetSelectorLabels getenv this },
      MaxUnavailable := some { IntVal := 1 } } }

/-! ## A parser instance

The theorems below hold for every parser `parse`.  To evaluate the factory on concrete specs
the parameter is instantiated with `ParseQuantity`, a reading of the quantity grammar documented
by the Kubernetes API machinery:
`<quantity> ::= <signedNumber><suffix>`, a number being `<digits>`, `<digits>.<digits>`,
`<digits>.` or `.<digits>`, and a suffix one of `Ki Mi Gi Ti Pi Ei`, one of
`n u m k M G T P E`, nothing, or `e`/`E` followed by a signed integer. -/

/-- The three suffix families of a quantity. -/
inductive Format where
  | DecimalExponent
  | BinarySI
  | DecimalSI
  deriving DecidableEq, Repr

/-- A parsed quantity: the amount `unscaled * 10 ^ scale10 * 2 ^ scale2`, and the suffix family
it was written in. -/
structure Quantity where
  unscaled : Int
  scale10 : Int
  scale2 : Nat
  format : Format
  deriving DecidableEq, Repr

/-- The number written by a list of decimal digits. -/
def digitsValue (ds : List Char) : Nat :=
  ds.foldl (fun n c => 10 * n + (c.toNat - 48)) 0

/-- A signed integer, as after the `e` of a decimal exponent. -/
def parseExponent (cs : List Char) : Option Int :=
  let (neg, ds) :=
    match cs with
    | '+' :: r => (false, r)
    | '-' :: r => (true, r)
    | _ => (false, cs)
  if ds.isEmpty || !ds.all Char.isDigit then none
  else some (if neg then -(digitsValue ds : Int) else (digitsValue ds : Int))

/-- The suffix of a quantity: its power of ten, its power of two and its family. -/
def parseSuffix (cs : List Char) : Option (Int × Nat × Format) :=
  match cs with
  | [] => some (0, 0, .DecimalSI)
  | ['n'] => some (-9, 0, .DecimalSI)
  | ['u'] => some (-6, 0, .DecimalSI)
  | ['m'] => some (-3, 0, .DecimalSI)
  | ['k'] => some (3, 0, .DecimalSI)
  | ['M'] => some (6, 0, .DecimalSI)
  | ['G'] => some (9, 0, .DecimalSI)
  | ['T'] => some (12, 0, .DecimalSI)
  | ['P'] => some (15, 0, .DecimalSI)
  | ['E'] => some (18, 0, .DecimalSI)
  | ['K', 'i'] => some (0, 10, .BinarySI)
  | ['M', 'i'] => some (0, 20, .BinarySI)
  | ['G', 'i'] => some (0, 30, .BinarySI)
  | ['T', 'i'] => some (0, 40, .BinarySI)
  | ['P', 'i'] => some (0, 50, .BinarySI)
  | ['E', 'i'] => some (0, 60, .BinarySI)
  | 'e' :: r => (parseExponent r).map (fun e => (e, 0, .DecimalExponent))
  | 'E' :: r => (parseExponent r).map (fun e => (e, 0, .DecimalExponent))
  | _ => none

/-- The parser instance: `none` for a string outside the grammar. -/
def ParseQuantity (str : String) : Option Quantity :=
  let cs := str.toList
  let (neg, cs) :=
    match cs with
    | '+' :: r => (false, r)
    | '-' :: r => (true, r)
    | _ => (false, cs)
  let (whole, cs) := cs.span Char.isDigit
  let (frac, cs) :=
    match cs with
    | '.' :: r => r.span Char.isDigit
    | _ => ([], cs)
  if whole.isEmpty && frac.isEmpty then none
  else
    match parseSuffix cs with
    | none => none
    | some (e10, e2, fmt) =>
      let n : Int := digitsValue (whole ++ frac)
      some { unscaled := if neg then -n else n,
             scale10 := e10 - frac.length,
             scale2 := e2,
             format := fmt }

/-! ## Sample inputs -/

/-- An environment with both identity variables set. -/
def sampleEnv : String → String := fun key =>
  if key = "REGISTRY_VERSION" then "2.0.0"
  else if key = "OPERATOR_NAME" then "op1"
  else ""

/-- Two extra volumes; the volume source is a plain tag here. -/
def sampleVolumes : List (ApicurioRegistrySpecDeploymentVolume String) :=
  [{ Name := "config", VolumeSource := "configMap", ReadOnly := true, MountPath := "/etc/cfg",
     SubPath := "", MountPropagation := none, SubPathExpr := "" },
   { Name := "data", VolumeSource := "emptyDir", ReadOnly := false, MountPath := "/var/data",
     SubPath := "d", MountPropagation := some "None", SubPathExpr := "" }]

/-- A factory for application `reg1` in namespace `ns1` whose cache holds the given spec
entry. -/
def sampleFactory (spec : Option (ApicurioRegistry String)) : KubeFactory String :=
  NewKubeFactory
    { GetAppName := "reg1", GetAppNamespace := "ns1", GetResourceCache := { GetSpec := spec } }

/-- A spec with the given volumes and all four quantity strings equal to `"0"`. -/
def zeroSpec (volumes : List (ApicurioRegistrySpecDeploymentVolume String)) :
    ApicurioRegistry String :=
  { Spec := { Deployment := {
      Volumes := volumes,
      Resources := { Cpu := { Limit := "0", Request := "0" },
                     Memory := { Limit := "0", Request := "0" } } } } }

/-! ## Auxiliary definitions of the statements -/

/-- The keys of a map, each once. -/
def mapKeys (m : StringMap) : List String :=
  (m.map Prod.fst).dedup

/-- The panics `resolveSpec` can end in: the nil-map assignment, or `MustParse` on a default
that the parser rejects. -/
def specPanic {Q : Type} (parse : String → Option Q) (p : Panic) : Prop :=
  p = .nilMapAssignment ∨
    ∃ dflt, dflt ∈ ["1", "1280Mi", "500m", "512Mi"] ∧ parse dflt = none ∧ p = .mustParse dflt

/-- The deployment assembled from resolved limits, requests, volumes and mounts, and the labels
of the application. -/
def assembled {VS Q : Type} (getenv : String → String) (this : KubeFactory VS)
    (labels : StringMap)
    (st : ResourceList Q × ResourceList Q × List (Volume VS) × List VolumeMount) :
    Deployment VS Q :=
  { ObjectMeta := { Name := this.ctx.GetAppName ++ "-" ++ "deployment",
                    Namespace := this.ctx.GetAppNamespace,
                    Labels := labels },
    Spec := {
      Replicas := some 1,
      Selector := some { MatchLabels := GetSelectorLabels getenv this },
      Template := {
        ObjectMeta := { Labels := labels },
        Spec := {
          Containers := [{
            Name := this.ctx.GetAppName,
            Image := "",
            Ports := [{ ContainerPort := 8080, Protocol := "TCP" }],
            Env := [],
            Resources := { Limits := st.1, Requests := st.2.1 },
            LivenessProbe := some (healthProbe "/health/live"),
            ReadinessProbe := some (healthProbe "/health/ready"),
            TerminationMessagePath := "/dev/termination-log",
            ImagePullPolicy := PullAlways,
            VolumeMounts := st.2.2.2 }],
          RestartPolicy := RestartPolicyAlways,
          TerminationGracePeriodSeconds := some 30,
          DNSPolicy := DNSClusterFirst,
          Volumes := st.2.2.1 } },
      Strategy := {
        Type_ := RollingUpdateDeploymentStrategyType,
        RollingUpdate := some {
          MaxUnavailable := some { Type_ := intstr_Int, IntVal := 1 },
          MaxSurge := some { Type_ := intstr_Int, IntVal := 1 } } } } }

/-! ## Lemmas on the building blocks -/

section Lemmas

variable {VS Q : Type}

/-- With both identity variables set, `GetLabels` returns its eight-entry literal. -/
theorem GetLabels_eq (getenv : String → String) (this : KubeFactory VS)
    (hv : getenv ENV_REGISTRY_VERSION ≠ "") (ho : getenv ENV_OPERATOR_NAME ≠ "") :
    GetLabels getenv this = .ok
      [("app", this.ctx.GetAppName),
       ("apicur.io/type", "apicurio-registry"),
       ("apicur.io/name", this.ctx.GetAppName),
       ("apicur.io/version", getenv ENV_REGISTRY_VERSION),
       ("app.kubernetes.io/name", "apicurio-registry"),
       ("app.kubernetes.io/instance", this.ctx.GetAppName),
       ("app.kubernetes.io/version", getenv ENV_REGISTRY_VERSION),
       ("app.kubernetes.io/managed-by", getenv ENV_OPERATOR_NAME)] := by
  simp [GetLabels, hv, ho]

/-- With both identity variables set, `createObjectMeta` returns the name, namespace and
labels of the application. -/
theorem createObjectMeta_eq (getenv : String → String) (this : KubeFactory VS)
    (typeTag : String) (labels : StringMap) (hl : GetLabels getenv this = .ok labels) :
    createObjectMeta getenv this typeTag = .ok
      { Name := this.ctx.GetAppName ++ "-" ++ typeTag,
        Namespace := this.ctx.GetAppNamespace,
        Labels := labels } := by
  simp [createObjectMeta, hl, bind, Except.bind, pure, Except.pure]

/-- The volume loop is a map over the volumes, appended to the incoming slices. -/
theorem appendVolumes_eq (acc : List (Volume VS) × List VolumeMount)
    (volumes : List (ApicurioRegistrySpecDeploymentVolume VS)) :
    appendVolumes acc volumes =
      (acc.1 ++ volumes.map (fun v => { Name := v.Name, VolumeSource := v.VolumeSource }),
       acc.2 ++ volumes.map (fun v =>
         { Name := v.Name, ReadOnly := v.ReadOnly, MountPath := v.MountPath,
           SubPath := v.SubPath, MountPropagation := v.MountPropagation,
           SubPathExpr := v.SubPathExpr })) := by
  induction volumes generalizing acc with
  | nil => simp [appendVolumes]
  | cons v vs ih =>
    have h := ih (acc.1 ++ [{ Name := v.Name, VolumeSource := v.VolumeSource }],
      acc.2 ++ [{ Name := v.Name, ReadOnly := v.ReadOnly, MountPath := v.MountPath,
                  SubPath := v.SubPath, MountPropagation := v.MountPropagation,
                  SubPathExpr := v.SubPathExpr }])
    simp only [appendVolumes, List.foldl_cons] at h ⊢
    rw [h]
    simp

/-- On the nil map, a block whose string is `"0"` leaves the map nil. -/
theorem assignQuantity_nil_zero (parse : String → Option Q) (name : ResourceName)
    (dflt : String) (hzero : (parse "0").isSome = true) :
    assignQuantity parse none name "0" dflt = .ok none := by
  obtain ⟨q, hq⟩ := Option.isSome_iff_exists.mp hzero
  simp [assignQuantity, quantityToAssign, hq]

/-- On the nil map, a block whose string is not `"0"` panics: on the assignment, or before it
in `MustParse` when the default itself does not parse. -/
theorem assignQuantity_nil_nonzero (parse : String → Option Q) (name : ResourceName)
    (str dflt : String) (hne : str ≠ "0") :
    assignQuantity parse none name str dflt = .error .nilMapAssignment ∨
      (parse dflt = none ∧ assignQuantity parse none name str dflt = .error (.mustParse dflt)) := by
  cases hs : parse str with
  | some q =>
    left
    simp [assignQuantity, quantityToAssign, hs, hne, MustParse, mapAssign, bind, Except.bind]
  | none =>
    cases hd : parse dflt with
    | some q =>
      left
      simp [assignQuantity, quantityToAssign, hs, hd, MustParse, mapAssign, bind, Except.bind]
    | none =>
      right
      simp [assignQuantity, quantityToAssign, hs, hd, MustParse, bind, Except.bind]

theorem resolveSpec_none (parse : String → Option Q) (this : KubeFactory VS)
    (hspec : this.ctx.GetResourceCache.GetSpec = none) :
    resolveSpec parse this = .ok (none, none, [], []) := by
  simp [resolveSpec, hspec, pure, Except.pure]

/-- With a cached spec, `resolveSpec` is the four blocks in sequence, each on a nil map as long
as none of them panics. -/
theorem resolveSpec_some (parse : String → Option Q) (this : KubeFactory VS)
    (spec : ApicurioRegistry VS) (hspec : this.ctx.GetResourceCache.GetSpec = some spec) :
    resolveSpec parse this =
      (assignQuantity parse none ResourceCPU spec.Spec.Deployment.Resources.Cpu.Limit "1").bind
        fun l₁ =>
      (assignQuantity parse l₁ ResourceMemory
        spec.Spec.Deployment.Resources.Memory.Limit "1280Mi").bind fun l₂ =>
      (assignQuantity parse none ResourceCPU
        spec.Spec.Deployment.Resources.Cpu.Request "500m").bind fun r₁ =>
      (assignQuantity parse r₁ ResourceMemory
        spec.Spec.Deployment.Resources.Memory.Request "512Mi").bind fun r₂ =>
      .ok (l₂, r₂, (appendVolumes ([], []) spec.Spec.Deployment.Volumes).1,
        (appendVolumes ([], []) spec.Spec.Deployment.Volumes).2) := by
  simp only [resolveSpec, hspec, bind, pure, Except.pure]

/-- With a cached spec whose four quantity strings are `"0"`, `resolveSpec` returns nil maps and
the translated volumes. -/
theorem resolveSpec_zero (parse : String → Option Q) (this : KubeFactory VS)
    (spec : ApicurioRegistry VS) (hspec : this.ctx.GetResourceCache.GetSpec = some spec)
    (hzero : (parse "0").isSome = true)
    (h₁ : spec.Spec.Deployment.Resources.Cpu.Limit = "0")
    (h₂ : spec.Spec.Deployment.Resources.Memory.Limit = "0")
    (h₃ : spec.Spec.Deployment.Resources.Cpu.Request = "0")
    (h₄ : spec.Spec.Deployment.Resources.Memory.Request = "0") :
    resolveSpec parse this = .ok (none, none,
      (appendVolumes ([], []) spec.Spec.Deployment.Volumes).1,
      (appendVolumes ([], []) spec.Spec.Deployment.Volumes).2) := by
  rw [resolveSpec_some parse this spec hspec, h₁, h₂, h₃, h₄]
  simp [assignQuantity_nil_zero parse _ _ hzero, Except.bind]

/-- With a cached spec one of whose quantity strings is not `"0"`, `resolveSpec` panics. -/
theorem resolveSpec_nonzero (parse : String → Option Q) (this : KubeFactory VS)
    (spec : ApicurioRegistry VS) (hspec : this.ctx.GetResourceCache.GetSpec = some spec)
    (hzero : (parse "0").isSome = true)
    (hne : ¬ (spec.Spec.Deployment.Resources.Cpu.Limit = "0" ∧
      spec.Spec.Deployment.Resources.Memory.Limit = "0" ∧
      spec.Spec.Deployment.Resources.Cpu.Request = "0" ∧
      spec.Spec.Deployment.Resources.Memory.Request = "0")) :
    ∃ p, resolveSpec parse this = .error p ∧ specPanic parse p := by
  rw [resolveSpec_some parse this spec hspec]
  by_cases h₁ : spec.Spec.Deployment.Resources.Cpu.Limit = "0"
  · rw [h₁, assignQuantity_nil_zero parse _ _ hzero]
    by_cases h₂ : spec.Spec.Deployment.Resources.Memory.Limit = "0"
    · rw [h₂]
      simp only [Except.bind, assignQuantity_nil_zero parse _ _ hzero]
      by_cases h₃ : spec.Spec.Deployment.Resources.Cpu.Request = "0"
      · rw [h₃]
        simp only [Except.bind, assignQuantity_nil_zero parse _ _ hzero]
        have h₄ : spec.Spec.Deployment.Resources.Memory.Request ≠ "0" :=
          fun h => hne ⟨h₁, h₂, h₃, h⟩
        rcases assignQuantity_nil_nonzero parse ResourceMemory _ "512Mi" h₄ with h | ⟨hd, h⟩
        · exact ⟨_, by rw [h], .inl rfl⟩
        · exact ⟨_, by rw [h], .inr ⟨"512Mi", by simp, hd, rfl⟩⟩
      · rcases assignQuantity_nil_nonzero parse ResourceCPU _ "500m" h₃ with h | ⟨hd, h⟩
        · exact ⟨_, by rw [h], .inl rfl⟩
        · exact ⟨_, by rw [h], .inr ⟨"500m", by simp, hd, rfl⟩⟩
    · simp only [Except.bind]
      rcases assignQuantity_nil_nonzero parse ResourceMemory _ "1280Mi" h₂ with h | ⟨hd, h⟩
      · exact ⟨_, by rw [h], .inl rfl⟩
      · exact ⟨_, by rw [h], .inr ⟨"1280Mi", by simp, hd, rfl⟩⟩
  · rcases assignQuantity_nil_nonzero parse ResourceCPU _ "1" h₁ with h | ⟨hd, h⟩
    · exact ⟨_, by rw [h]; rfl, .inl rfl⟩
    · exact ⟨_, by rw [h]; rfl, .inr ⟨"1", by simp, hd, rfl⟩⟩

/-- A panic of `resolveSpec` is the panic of `CreateDeployment`. -/
theorem CreateDeployment_of_error (getenv : String → String) (parse : String → Option Q)
    (this : KubeFactory VS) (p : Panic) (h : resolveSpec parse this = .error p) :
    CreateDeployment getenv parse this = .error p := by
  simp [CreateDeployment, h, bind, Except.bind]

/-- With the labels available, a result of `resolveSpec` is assembled into the deployment. -/
theorem CreateDeployment_of_ok (getenv : String → String) (parse : String → Option Q)
    (this : KubeFactory VS) (labels : StringMap)
    (st : ResourceList Q × ResourceList Q × List (Volume VS) × List VolumeMount)
    (hl : GetLabels getenv this = .ok labels) (h : resolveSpec parse this = .ok st) :
    CreateDeployment getenv parse this = .ok (assembled getenv this labels st) := by
  obtain ⟨l, r, v, m⟩ := st
  simp [CreateDeployment, h, hl, createObjectMeta_eq getenv this _ labels hl, bind, Except.bind,
    pure, Except.pure, assembled]

/-- Whatever `resolveSpec` returns with a cached spec, its volumes and mounts are those of the
volume loop. -/
theorem resolveSpec_volumes (parse : String → Option Q) (this : KubeFactory VS)
    (spec : ApicurioRegistry VS) (hspec : this.ctx.GetResourceCache.GetSpec = some spec)
    (st : ResourceList Q × ResourceList Q × List (Volume VS) × List VolumeMount)
    (h : resolveSpec parse this = .ok st) :
    st.2.2 = appendVolumes ([], []) spec.Spec.Deployment.Volumes := by
  rw [resolveSpec_some parse this spec hspec] at h
  cases h₁ : assignQuantity parse none ResourceCPU
      spec.Spec.Deployment.Resources.Cpu.Limit "1" with
  | error p => rw [h₁] at h; simp [Except.bind] at h
  | ok l₁ =>
    rw [h₁] at h
    simp only [Except.bind] at h
    cases h₂ : assignQuantity parse l₁ ResourceMemory
        spec.Spec.Deployment.Resources.Memory.Limit "1280Mi" with
    | error p => rw [h₂] at h; simp at h
    | ok l₂ =>
      rw [h₂] at h
      simp only at h
      cases h₃ : assignQuantity parse none ResourceCPU
          spec.Spec.Deployment.Resources.Cpu.Request "500m" with
      | error p => rw [h₃] at h; simp at h
      | ok r₁ =>
        rw [h₃] at h
        simp only at h
        cases h₄ : assignQuantity parse r₁ ResourceMemory
            spec.Spec.Deployment.Resources.Memory.Request "512Mi" with
        | error p => rw [h₄] at h; simp at h
        | ok r₂ =>
          rw [h₄] at h
          simp only [Except.ok.injEq] at h
          rw [← h]

/-- A completed `CreateDeployment` is the assembly of a result of `resolveSpec` with the labels
of `GetLabels`. -/
theorem CreateDeployment_ok_inv (getenv : String → String) (parse : String → Option Q)
    (this : KubeFactory VS) (d : Deployment VS Q)
    (h : CreateDeployment getenv parse this = .ok d) :
    ∃ labels st, GetLabels getenv this = .ok labels ∧ resolveSpec parse this = .ok st ∧
      d = assembled getenv this labels st := by
  cases hr : resolveSpec parse this with
  | error p =>
    rw [CreateDeployment_of_error getenv parse this p hr] at h
    cases h
  | ok st =>
    cases hl : GetLabels getenv this with
    | error p =>
      simp [CreateDeployment, hr, hl, createObjectMeta, bind, Except.bind] at h
    | ok labels =>
      rw [CreateDeployment_of_ok getenv parse this labels st hl hr] at h
      exact ⟨labels, st, rfl, rfl, (Except.ok.inj h).symm⟩

end Lemmas

/-! ## The properties -/

section Claims

variable {VS Q : Type}

/-- C3, fail-fast on missing identity: for every factory and every environment, `GetLabels`
panics if and only if the version variable is empty or the operator-name variable is empty, and
it returns a label map if and only if both are non-empty. -/
theorem GetLabels_fail_fast (getenv : String → String) (this : KubeFactory VS) :
    (panics (GetLabels getenv this) = true ↔
      (getenv ENV_REGISTRY_VERSION = "" ∨ getenv ENV_OPERATOR_NAME = "")) ∧
    ((∃ labels, GetLabels getenv this = .ok labels) ↔
      (getenv ENV_REGISTRY_VERSION ≠ "" ∧ getenv ENV_OPERATOR_NAME ≠ "")) := by
  by_cases hv : getenv ENV_REGISTRY_VERSION = ""
  · simp [GetLabels, hv, panics]
  · by_cases ho : getenv ENV_OPERATOR_NAME = ""
    · simp [GetLabels, hv, ho, panics]
    · simp [GetLabels, hv, ho, panics]

/-- C4, route requires backend: with both identity variables set, `CreateIngress` panics if and
only if the service name is empty; for a non-empty name it returns an ingress whose rules are
exactly one rule with empty host and exactly one HTTP path, the path `/` of type `Prefix` whose
backend is the service of that name on port number 8080. -/
theorem CreateIngress_requires_backend (getenv : String → String) (this : KubeFactory VS)
    (serviceName : String)
    (hv : getenv ENV_REGISTRY_VERSION ≠ "") (ho : getenv ENV_OPERATOR_NAME ≠ "") :
    (panics (CreateIngress getenv this serviceName) = true ↔ serviceName = "") ∧
    (serviceName ≠ "" →
      ∃ ing, CreateIngress getenv this serviceName = .ok ing ∧
        ing.Spec.Rules =
          [{ Host := "",
             IngressRuleValue := { HTTP := some { Paths :=
               [{ Path := "/",
                  PathType := some PathTypePrefix,
                  Backend := { Service := some {
                    Name := serviceName, Port := { Name := "", Number := 8080 } } } }] } } }]) := by
  have hl := GetLabels_eq getenv this hv ho
  by_cases hs : serviceName = ""
  · simp [CreateIngress, hs, panics]
  · simp [CreateIngress, hs, panics, createObjectMeta_eq getenv this _ _ hl, bind, Except.bind,
      pure, Except.pure]

/-- The witness of C4: the sample factory panics on the empty name and routes `/` to `svc-x`. -/
theorem CreateIngress_requires_backend_witness :
    sampleEnv ENV_REGISTRY_VERSION ≠ "" ∧ sampleEnv ENV_OPERATOR_NAME ≠ "" ∧
    panics (CreateIngress sampleEnv (sampleFactory none) "") = true ∧
    ∃ ing, CreateIngress sampleEnv (sampleFactory none) "svc-x" = .ok ing ∧
      ing.Spec.Rules =
        [{ Host := "",
           IngressRuleValue := { HTTP := some { Paths :=
             [{ Path := "/",
                PathType := some "Prefix",
                Backend := { Service := some {
                  Name := "svc-x", Port := { Name := "", Number := 8080 } } } }] } } }] :=
  ⟨by decide, by decide,
   (CreateIngress_requires_backend sampleEnv (sampleFactory none) ""
      (by decide) (by decide)).1.mpr rfl,
   (CreateIngress_requires_backend sampleEnv (sampleFactory none) "svc-x"
      (by decide) (by decide)).2 (by decide)⟩

/-- C5, selector stability: `GetSelectorLabels` is the one-entry map from `app` to the
application name whatever the environment; two factories have the same selector labels, as lists
and as maps, if and only if they have the same application name, whatever their environments. -/
theorem GetSelectorLabels_stable (getenv₁ getenv₂ : String → String)
    (this₁ this₂ : KubeFactory VS) :
    GetSelectorLabels getenv₁ this₁ = [("app", this₁.ctx.GetAppName)] ∧
    (GetSelectorLabels getenv₁ this₁ = GetSelectorLabels getenv₂ this₂ ↔
      this₁.ctx.GetAppName = this₂.ctx.GetAppName) ∧
    ((∀ key, (GetSelectorLabels getenv₁ this₁).lookup key =
        (GetSelectorLabels getenv₂ this₂).lookup key) ↔
      this₁.ctx.GetAppName = this₂.ctx.GetAppName) := by
  refine ⟨rfl, ?_, ?_⟩
  · simp [GetSelectorLabels]
  · constructor
    · intro h
      have h' := h "app"
      simpa [GetSelectorLabels, List.lookup] using h'
    · intro h key
      simp [GetSelectorLabels, h]

/-- C6, object metadata: with both identity variables set, `GetLabels` returns a map `labels`,
and every descriptor that is constructed (the deployment whenever `CreateDeployment`
completes, the service, the ingress for every non-empty backend name, the disruption budget) has
the name `appName ++ "-" ++ tag` for its tag, the namespace of the application and `labels`. -/
theorem descriptors_object_meta (getenv : String → String) (parse : String → Option Q)
    (this : KubeFactory VS)
    (hv : getenv ENV_REGISTRY_VERSION ≠ "") (ho : getenv ENV_OPERATOR_NAME ≠ "") :
    ∃ labels, GetLabels getenv this = .ok labels ∧
      (∀ d, CreateDeployment getenv parse this = .ok d →
        d.ObjectMeta.Name = this.ctx.GetAppName ++ "-" ++ "deployment" ∧
        d.ObjectMeta.Namespace = this.ctx.GetAppNamespace ∧
        d.ObjectMeta.Labels = labels) ∧
      (∃ s, CreateService getenv this = .ok s ∧
        s.ObjectMeta.Name = this.ctx.GetAppName ++ "-" ++ "service" ∧
        s.ObjectMeta.Namespace = this.ctx.GetAppNamespace ∧
        s.ObjectMeta.Labels = labels) ∧
      (∀ serviceName, serviceName ≠ "" →
        ∃ i, CreateIngress getenv this serviceName = .ok i ∧
          i.ObjectMeta.Name = this.ctx.GetAppName ++ "-" ++ "ingress" ∧
          i.ObjectMeta.Namespace = this.ctx.GetAppNamespace ∧
          i.ObjectMeta.Labels = labels) ∧
      (∃ b, CreatePodDisruptionBudget getenv this = .ok b ∧
        b.ObjectMeta.Name = this.ctx.GetAppName ++ "-" ++ "pdb" ∧
        b.ObjectMeta.Namespace = this.ctx.GetAppNamespace ∧
        b.ObjectMeta.Labels = labels) := by
  have hl := GetLabels_eq getenv this hv ho
  refine ⟨_, hl, ?_, ?_, ?_, ?_⟩
  · intro d hd
    obtain ⟨labels, st, hl', _, rfl⟩ := CreateDeployment_ok_inv getenv parse this d hd
    rw [hl] at hl'
    cases hl'
    exact ⟨rfl, rfl, rfl⟩
  · simp [CreateService, createObjectMeta_eq getenv this _ _ hl, bind, Except.bind, pure,
      Except.pure]
  · intro serviceName hs
    simp [CreateIngress, hs, createObjectMeta_eq getenv this _ _ hl, bind, Except.bind, pure,
      Except.pure]
  · simp [CreatePodDisruptionBudget, createObjectMeta_eq getenv this _ _ hl, bind, Except.bind,
      pure, Except.pure]

/-- The witness of C6: the sample factory with an all-`"0"` spec completes all four constructors
with the names `reg1-deployment`, `reg1-service`, `reg1-ingress` and `reg1-pdb`. -/
theorem descriptors_object_meta_witness :
    sampleEnv ENV_REGISTRY_VERSION ≠ "" ∧ sampleEnv ENV_OPERATOR_NAME ≠ "" ∧
    (∃ d, CreateDeployment sampleEnv ParseQuantity (sampleFactory (some (zeroSpec []))) = .ok d ∧
      d.ObjectMeta.Name = "reg1-deployment" ∧ d.ObjectMeta.Namespace = "ns1") ∧
    (∃ s, CreateService sampleEnv (sampleFactory (some (zeroSpec []))) = .ok s ∧
      s.ObjectMeta.Name = "reg1-service" ∧ s.ObjectMeta.Namespace = "ns1") ∧
    (∃ i, CreateIngress sampleEnv (sampleFactory (some (zeroSpec []))) "svc-x" = .ok i ∧
      i.ObjectMeta.Name = "reg1-ingress" ∧ i.ObjectMeta.Namespace = "ns1") ∧
    (∃ b, CreatePodDisruptionBudget sampleEnv (sampleFactory (some (zeroSpec []))) = .ok b ∧
      b.ObjectMeta.Name = "reg1-pdb" ∧ b.ObjectMeta.Namespace = "ns1") := by
  obtain ⟨labels, _, hd, ⟨s, hs, hs₁, hs₂, _⟩, hi, ⟨b, hb, hb₁, hb₂, _⟩⟩ :=
    descriptors_object_meta sampleEnv ParseQuantity (sampleFactory (some (zeroSpec [])))
      (by decide) (by decide)
  obtain ⟨i, hi, hi₁, hi₂, _⟩ := hi "svc-x" (by decide)
  refine ⟨by decide, by decide, ⟨_, rfl, ?_⟩, ⟨s, hs, ?_, hs₂⟩, ⟨i, hi, ?_, hi₂⟩, ⟨b, hb, ?_, hb₂⟩⟩
  · have h := hd _ rfl
    exact ⟨h.1, h.2.1⟩
  · rw [hs₁]; rfl
  · rw [hi₁]; rfl
  · rw [hb₁]; rfl

/-- The counterexample of C7: for the sample factory the map of `GetLabels` has eight keys, so
no map it returns has exactly seven. -/
theorem GetLabels_seven_keys_counterexample :
    (∃ labels, GetLabels sampleEnv (sampleFactory none) = .ok labels ∧
      (mapKeys labels).length = 8) ∧
    ¬ ∃ labels, GetLabels sampleEnv (sampleFactory none) = .ok labels ∧
      (mapKeys labels).length = 7 := by
  have h : GetLabels sampleEnv (sampleFactory none) = .ok
      [("app", "reg1"), ("apicur.io/type", "apicurio-registry"), ("apicur.io/name", "reg1"),
       ("apicur.io/version", "2.0.0"), ("app.kubernetes.io/name", "apicurio-registry"),
       ("app.kubernetes.io/instance", "reg1"), ("app.kubernetes.io/version", "2.0.0"),
       ("app.kubernetes.io/managed-by", "op1")] := rfl
  constructor
  · exact ⟨_, h, by decide⟩
  · rintro ⟨labels, hl, hlen⟩
    rw [h] at hl
    cases hl
    revert hlen
    decide

/-- C7 as amended, display-label contents: with both identity variables set, `GetLabels`
returns a map with exactly eight keys: the seven display entries `app`, `apicur.io/type`,
`apicur.io/name`, `apicur.io/version`, `app.kubernetes.io/name`, `app.kubernetes.io/instance`,
`app.kubernetes.io/version`, and the provenance entry `app.kubernetes.io/managed-by`, which
holds the operator identity. -/
theorem GetLabels_contents (getenv : String → String) (this : KubeFactory VS)
    (hv : getenv ENV_REGISTRY_VERSION ≠ "") (ho : getenv ENV_OPERATOR_NAME ≠ "") :
    ∃ labels, GetLabels getenv this = .ok labels ∧
      mapKeys labels =
        ["app", "apicur.io/type", "apicur.io/name", "apicur.io/version",
         "app.kubernetes.io/name", "app.kubernetes.io/instance", "app.kubernetes.io/version",
         "app.kubernetes.io/managed-by"] ∧
      (mapKeys labels).length = 8 ∧
      ((mapKeys labels).erase "app.kubernetes.io/managed-by").length = 7 ∧
      labels.lookup "app.kubernetes.io/managed-by" = some (getenv ENV_OPERATOR_NAME) ∧
      labels.lookup "app" = some this.ctx.GetAppName ∧
      labels.lookup "apicur.io/type" = some "apicurio-registry" ∧
      labels.lookup "apicur.io/name" = some this.ctx.GetAppName ∧
      labels.lookup "apicur.io/version" = some (getenv ENV_REGISTRY_VERSION) ∧
      labels.lookup "app.kubernetes.io/name" = some "apicurio-registry" ∧
      labels.lookup "app.kubernetes.io/instance" = some this.ctx.GetAppName ∧
      labels.lookup "app.kubernetes.io/version" = some (getenv ENV_REGISTRY_VERSION) := by
  refine ⟨_, GetLabels_eq getenv this hv ho, ?_, ?_, ?_, ?_, ?_, ?_, ?_, ?_, ?_, ?_, ?_⟩
  · simp only [mapKeys, List.map]
    decide
  · simp only [mapKeys, List.map]
    decide
  · simp only [mapKeys, List.map]
    decide
  all_goals simp [List.lookup]

/-- The witness of C7 as amended: the eight labels of the sample factory. -/
theorem GetLabels_contents_witness :
    sampleEnv ENV_REGISTRY_VERSION ≠ "" ∧ sampleEnv ENV_OPERATOR_NAME ≠ "" ∧
    ∃ labels, GetLabels sampleEnv (sampleFactory none) = .ok labels ∧
      (mapKeys labels).length = 8 ∧
      labels.lookup "app.kubernetes.io/managed-by" = some "op1" := by
  obtain ⟨labels, h, _, hlen, _, hm, _⟩ :=
    GetLabels_contents sampleEnv (sampleFactory none) (by decide) (by decide)
  exact ⟨by decide, by decide, labels, h, hlen, hm⟩

/-- C8, the nil-map hazard: with both identity variables set, a cached spec and a parser that
accepts `"0"`, `CreateDeployment` completes if and only if all four quantity strings are exactly
`"0"`; it panics as soon as one of them is anything else (parsable or not, empty included), the
panic being the assignment to a nil map, or the one of `MustParse` when the parser rejects a
default; and when it completes its one container has nil `Limits` and nil `Requests`. -/
theorem CreateDeployment_nil_map_hazard (getenv : String → String) (parse : String → Option Q)
    (this : KubeFactory VS) (spec : ApicurioRegistry VS)
    (hv : getenv ENV_REGISTRY_VERSION ≠ "") (ho : getenv ENV_OPERATOR_NAME ≠ "")
    (hspec : this.ctx.GetResourceCache.GetSpec = some spec)
    (hzero : (parse "0").isSome = true) :
    (panics (CreateDeployment getenv parse this) = false ↔
      (spec.Spec.Deployment.Resources.Cpu.Limit = "0" ∧
       spec.Spec.Deployment.Resources.Memory.Limit = "0" ∧
       spec.Spec.Deployment.Resources.Cpu.Request = "0" ∧
       spec.Spec.Deployment.Resources.Memory.Request = "0")) ∧
    (∀ str, str ∈ [spec.Spec.Deployment.Resources.Cpu.Limit,
        spec.Spec.Deployment.Resources.Memory.Limit,
        spec.Spec.Deployment.Resources.Cpu.Request,
        spec.Spec.Deployment.Resources.Memory.Request] → str ≠ "0" →
      panics (CreateDeployment getenv parse this) = true) ∧
    (∀ p, CreateDeployment getenv parse this = .error p → specPanic parse p) ∧
    (∀ d, CreateDeployment getenv parse this = .ok d →
      ∃ c, d.Spec.Template.Spec.Containers = [c] ∧
        c.Resources.Limits = none ∧ c.Resources.Requests = none) := by
  have hl := GetLabels_eq getenv this hv ho
  by_cases hall : spec.Spec.Deployment.Resources.Cpu.Limit = "0" ∧
      spec.Spec.Deployment.Resources.Memory.Limit = "0" ∧
      spec.Spec.Deployment.Resources.Cpu.Request = "0" ∧
      spec.Spec.Deployment.Resources.Memory.Request = "0"
  · obtain ⟨h₁, h₂, h₃, h₄⟩ := hall
    have hr := resolveSpec_zero parse this spec hspec hzero h₁ h₂ h₃ h₄
    have hd := CreateDeployment_of_ok getenv parse this _ _ hl hr
    refine ⟨?_, ?_, ?_, ?_⟩
    · rw [hd]
      simp [panics, h₁, h₂, h₃, h₄]
    · intro str hmem hne
      simp only [h₁, h₂, h₃, h₄, List.mem_cons, List.mem_singleton, List.not_mem_nil,
        or_false, or_self] at hmem
      exact absurd hmem hne
    · intro p hp
      rw [hd] at hp
      cases hp
    · intro d hd'
      rw [hd] at hd'
      cases hd'
      exact ⟨_, rfl, rfl, rfl⟩
  · obtain ⟨p, hr, hp⟩ := resolveSpec_nonzero parse this spec hspec hzero hall
    have hd := CreateDeployment_of_error getenv parse this p hr
    refine ⟨?_, ?_, ?_, ?_⟩
    · rw [hd]
      simp [panics, hall]
    · intro _ _ _
      rw [hd]
      rfl
    · intro p' hp'
      rw [hd] at hp'
      cases hp'
      exact hp
    · intro d hd'
      rw [hd] at hd'
      cases hd'

/-- The witness of C8: with the sample parser, the all-`"0"` spec completes with nil maps, and
a spec with CPU request `250m` panics on the nil-map assignment. -/
theorem CreateDeployment_nil_map_hazard_witness :
    sampleEnv ENV_REGISTRY_VERSION ≠ "" ∧ sampleEnv ENV_OPERATOR_NAME ≠ "" ∧
    (ParseQuantity "0").isSome = true ∧
    panics (CreateDeployment sampleEnv ParseQuantity
      (sampleFactory (some (zeroSpec sampleVolumes)))) = false ∧
    CreateDeployment sampleEnv ParseQuantity (sampleFactory (some
      { Spec := { Deployment := { Volumes := [], Resources :=
          { Cpu := { Limit := "0", Request := "250m" },
            Memory := { Limit := "0", Request := "0" } } } } })) = .error .nilMapAssignment :=
  ⟨by decide, by decide, by decide,
   (CreateDeployment_nil_map_hazard sampleEnv ParseQuantity
      (sampleFactory (some (zeroSpec sampleVolumes))) (zeroSpec sampleVolumes)
      (by decide) (by decide) rfl (by decide)).1.mpr ⟨rfl, rfl, rfl, rfl⟩,
   rfl⟩

/-- C9, volume translation: with a cached spec whose extra volumes are `vs`, whenever
`CreateDeployment` completes, the pod has `|vs|` volumes and its one container `|vs|` mounts, and
at every index the volume has the name and volume source of the spec volume there, and the mount
has the name of that volume and the read-only flag, mount path, sub-path, mount propagation and
sub-path expression of the spec volume; for an empty `vs` both lists are empty. -/
theorem CreateDeployment_volumes (getenv : String → String) (parse : String → Option Q)
    (this : KubeFactory VS) (spec : ApicurioRegistry VS) (d : Deployment VS Q)
    (hspec : this.ctx.GetResourceCache.GetSpec = some spec)
    (hd : CreateDeployment getenv parse this = .ok d) :
    ∃ c, d.Spec.Template.Spec.Containers = [c] ∧
      d.Spec.Template.Spec.Volumes.length = spec.Spec.Deployment.Volumes.length ∧
      c.VolumeMounts.length = spec.Spec.Deployment.Volumes.length ∧
      (∀ (i : Nat) (v : ApicurioRegistrySpecDeploymentVolume VS),
        spec.Spec.Deployment.Volumes[i]? = some v →
        ∃ (vol : Volume VS) (mnt : VolumeMount),
          d.Spec.Template.Spec.Volumes[i]? = some vol ∧ c.VolumeMounts[i]? = some mnt ∧
          vol.Name = v.Name ∧ vol.VolumeSource = v.VolumeSource ∧
          mnt.Name = vol.Name ∧ mnt.ReadOnly = v.ReadOnly ∧ mnt.MountPath = v.MountPath ∧
          mnt.SubPath = v.SubPath ∧ mnt.MountPropagation = v.MountPropagation ∧
          mnt.SubPathExpr = v.SubPathExpr) ∧
      (spec.Spec.Deployment.Volumes = [] →
        d.Spec.Template.Spec.Volumes = [] ∧ c.VolumeMounts = []) := by
  obtain ⟨labels, st, _, hr, rfl⟩ := CreateDeployment_ok_inv getenv parse this d hd
  have hvol := resolveSpec_volumes parse this spec hspec st hr
  rw [appendVolumes_eq] at hvol
  obtain ⟨l, r, vol, mnt⟩ := st
  simp only [List.nil_append, Prod.mk.injEq] at hvol
  obtain ⟨rfl, rfl⟩ := hvol
  refine ⟨_, rfl, ?_, ?_, ?_, ?_⟩
  · simp [assembled]
  · simp [assembled]
  · intro i v hv
    simp [assembled, hv]
  · intro hnil
    simp [assembled, hnil]

/-- The witness of C9: the two sample volumes become two volumes and two mounts, in order. -/
theorem CreateDeployment_volumes_witness :
    ∃ d c, CreateDeployment sampleEnv ParseQuantity
        (sampleFactory (some (zeroSpec sampleVolumes))) = .ok d ∧
      d.Spec.Template.Spec.Containers = [c] ∧
      d.Spec.Template.Spec.Volumes.map (fun v => v.Name) = ["config", "data"] ∧
      c.VolumeMounts.map (fun m => (m.Name, m.MountPath)) =
        [("config", "/etc/cfg"), ("data", "/var/data")] ∧
      d.Spec.Template.Spec.Volumes.length = 2 ∧ c.VolumeMounts.length = 2 := by
  obtain ⟨c, hc, h₁, h₂, _⟩ :=
    CreateDeployment_volumes sampleEnv ParseQuantity
      (sampleFactory (some (zeroSpec sampleVolumes))) (zeroSpec sampleVolumes) _ rfl rfl
  cases hc
  exact ⟨_, _, rfl, rfl, rfl, rfl, h₁, h₂⟩

/-- C10, selectors match the pods of the workload: with both identity variables set, the
selector of the service, the match-labels of the disruption budget and, whenever
`CreateDeployment` completes, the match-labels of the deployment selector are
`GetSelectorLabels`, and every key of the selector labels has the same value in the labels of
the pod template of the deployment and in the map of `GetLabels`. -/
theorem selectors_match_pods (getenv : String → String) (parse : String → Option Q)
    (this : KubeFactory VS)
    (hv : getenv ENV_REGISTRY_VERSION ≠ "") (ho : getenv ENV_OPERATOR_NAME ≠ "") :
    (∃ s, CreateService getenv this = .ok s ∧
      s.Spec.Selector = GetSelectorLabels getenv this) ∧
    (∃ b, CreatePodDisruptionBudget getenv this = .ok b ∧
      b.Spec.Selector = some { MatchLabels := GetSelectorLabels getenv this }) ∧
    (∀ d, CreateDeployment getenv parse this = .ok d →
      d.Spec.Selector = some { MatchLabels := GetSelectorLabels getenv this } ∧
      ∀ key value, (GetSelectorLabels getenv this).lookup key = some value →
        d.Spec.Template.ObjectMeta.Labels.lookup key = some value) ∧
    (∃ labels, GetLabels getenv this = .ok labels ∧
      ∀ key value, (GetSelectorLabels getenv this).lookup key = some value →
        labels.lookup key = some value) := by
  have hl := GetLabels_eq getenv this hv ho
  have hsub : ∀ key value, (GetSelectorLabels getenv this).lookup key = some value →
      List.lookup key
        [("app", this.ctx.GetAppName),
         ("apicur.io/type", "apicurio-registry"),
         ("apicur.io/name", this.ctx.GetAppName),
         ("apicur.io/version", getenv ENV_REGISTRY_VERSION),
         ("app.kubernetes.io/name", "apicurio-registry"),
         ("app.kubernetes.io/instance", this.ctx.GetAppName),
         ("app.kubernetes.io/version", getenv ENV_REGISTRY_VERSION),
         ("app.kubernetes.io/managed-by", getenv ENV_OPERATOR_NAME)] = some value := by
    intro key value h
    by_cases hk : key = "app"
    · subst hk
      simpa [GetSelectorLabels, List.lookup] using h
    · have hk' : (key == "app") = false := by simpa using hk
      simp [GetSelectorLabels, List.lookup, hk'] at h
  refine ⟨?_, ?_, ?_, ⟨_, hl, hsub⟩⟩
  · simp [CreateService, createObjectMeta_eq getenv this _ _ hl, bind, Except.bind, pure,
      Except.pure]
  · simp [CreatePodDisruptionBudget, createObjectMeta_eq getenv this _ _ hl, bind, Except.bind,
      pure, Except.pure]
  · intro d hd
    obtain ⟨labels, st, hl', _, rfl⟩ := CreateDeployment_ok_inv getenv parse this d hd
    rw [hl] at hl'
    cases hl'
    exact ⟨rfl, hsub⟩

/-- The witness of C10: the sample deployment selects `app = reg1`, and so do the sample service
and disruption budget. -/
theorem selectors_match_pods_witness :
    sampleEnv ENV_REGISTRY_VERSION ≠ "" ∧ sampleEnv ENV_OPERATOR_NAME ≠ "" ∧
    (∃ s, CreateService sampleEnv (sampleFactory (some (zeroSpec []))) = .ok s ∧
      s.Spec.Selector = [("app", "reg1")]) ∧
    (∃ b, CreatePodDisruptionBudget sampleEnv (sampleFactory (some (zeroSpec []))) = .ok b ∧
      b.Spec.Selector = some { MatchLabels := [("app", "reg1")] }) ∧
    (∃ d, CreateDeployment sampleEnv ParseQuantity (sampleFactory (some (zeroSpec []))) = .ok d ∧
      d.Spec.Selector = some { MatchLabels := [("app", "reg1")] } ∧
      d.Spec.Template.ObjectMeta.Labels.lookup "app" = some "reg1") := by
  obtain ⟨⟨s, hs, hs'⟩, ⟨b, hb, hb'⟩, hd, _⟩ :=
    selectors_match_pods sampleEnv ParseQuantity (sampleFactory (some (zeroSpec [])))
      (by decide) (by decide)
  refine ⟨by decide, by decide, ⟨s, hs, hs'⟩, ⟨b, hb, hb'⟩, ⟨_, rfl, ?_⟩⟩
  have h := hd _ rfl
  exact ⟨h.1, h.2 "app" "reg1" rfl⟩

/-- The counterexample of C1: with all four quantity strings `"0"`, `CreateDeployment`
completes and its container has no CPU limit at all, while the default `1` parses to a quantity;
the quantity placed for the string `"0"` is not the hard-coded default. -/
theorem quantity_defaulting_counterexample :
    ∃ d c, CreateDeployment sampleEnv ParseQuantity
        (sampleFactory (some (zeroSpec []))) = .ok d ∧
      d.Spec.Template.Spec.Containers = [c] ∧
      (zeroSpec []).Spec.Deployment.Resources.Cpu.Limit = "0" ∧
      ParseQuantity "1" =
        some { unscaled := 1, scale10 := 0, scale2 := 0, format := .DecimalSI } ∧
      c.Resources.Limits.get ResourceCPU = none ∧
      c.Resources.Limits.get ResourceCPU ≠ ParseQuantity "1" :=
  ⟨_, _, rfl, rfl, rfl, by decide, rfl, by decide⟩

/-- C1 as amended, quantity defaulting: with a cached spec, `CreateDeployment` runs one block per
attribute, with the defaults `1` and `1280Mi` for the CPU and memory limits and `500m` and
`512Mi` for the CPU and memory requests.  A block whose string does not parse (the empty string,
when the parser rejects it) assigns the parse of its default; a block whose string parses and is
not `"0"` assigns the parse of the string; a block whose string is `"0"`, accepted by the
parser, assigns nothing and leaves the map as it is.  So whenever `CreateDeployment` completes,
an attribute whose string is `"0"` has no entry in the limits or requests of the container. -/
theorem quantity_defaulting_amended (getenv : String → String) (parse : String → Option Q)
    (this : KubeFactory VS) (spec : ApicurioRegistry VS)
    (hspec : this.ctx.GetResourceCache.GetSpec = some spec)
    (hzero : (parse "0").isSome = true) :
    (resolveSpec parse this =
      (assignQuantity parse none ResourceCPU spec.Spec.Deployment.Resources.Cpu.Limit "1").bind
        fun l₁ =>
      (assignQuantity parse l₁ ResourceMemory
        spec.Spec.Deployment.Resources.Memory.Limit "1280Mi").bind fun l₂ =>
      (assignQuantity parse none ResourceCPU
        spec.Spec.Deployment.Resources.Cpu.Request "500m").bind fun r₁ =>
      (assignQuantity parse r₁ ResourceMemory
        spec.Spec.Deployment.Resources.Memory.Request "512Mi").bind fun r₂ =>
      .ok (l₂, r₂, (appendVolumes ([], []) spec.Spec.Deployment.Volumes).1,
        (appendVolumes ([], []) spec.Spec.Deployment.Volumes).2)) ∧
    (∀ (m : ResourceList Q) (name : ResourceName) (str dflt : String),
      (parse str = none →
        assignQuantity parse m name str dflt = (MustParse parse dflt).bind (mapAssign m name)) ∧
      (∀ q, parse str = some q → str ≠ "0" →
        assignQuantity parse m name str dflt = mapAssign m name q) ∧
      (str = "0" → assignQuantity parse m name str dflt = .ok m)) ∧
    (∀ d, CreateDeployment getenv parse this = .ok d →
      ∃ c, d.Spec.Template.Spec.Containers = [c] ∧
        (spec.Spec.Deployment.Resources.Cpu.Limit = "0" →
          c.Resources.Limits.get ResourceCPU = none) ∧
        (spec.Spec.Deployment.Resources.Memory.Limit = "0" →
          c.Resources.Limits.get ResourceMemory = none) ∧
        (spec.Spec.Deployment.Resources.Cpu.Request = "0" →
          c.Resources.Requests.get ResourceCPU = none) ∧
        (spec.Spec.Deployment.Resources.Memory.Request = "0" →
          c.Resources.Requests.get ResourceMemory = none)) := by
  refine ⟨resolveSpec_some parse this spec hspec, ?_, ?_⟩
  · intro m name str dflt
    refine ⟨?_, ?_, ?_⟩
    · intro h
      simp [assignQuantity, quantityToAssign, h, bind]
    · intro q h hne
      simp [assignQuantity, quantityToAssign, h, hne, MustParse, bind, Except.bind]
    · intro h
      obtain ⟨q, hq⟩ := Option.isSome_iff_exists.mp hzero
      subst h
      simp [assignQuantity, quantityToAssign, hq]
  · intro d hd
    obtain ⟨labels, st, _, hr, rfl⟩ := CreateDeployment_ok_inv getenv parse this d hd
    by_cases hall : spec.Spec.Deployment.Resources.Cpu.Limit = "0" ∧
        spec.Spec.Deployment.Resources.Memory.Limit = "0" ∧
        spec.Spec.Deployment.Resources.Cpu.Request = "0" ∧
        spec.Spec.Deployment.Resources.Memory.Request = "0"
    · obtain ⟨h₁, h₂, h₃, h₄⟩ := hall
      rw [resolveSpec_zero parse this spec hspec hzero h₁ h₂ h₃ h₄] at hr
      cases hr
      exact ⟨_, rfl, fun _ => rfl, fun _ => rfl, fun _ => rfl, fun _ => rfl⟩
    · obtain ⟨p, hp, _⟩ := resolveSpec_nonzero parse this spec hspec hzero hall
      rw [hp] at hr
      cases hr

/-- The witness of C1 as amended: the sample parser accepts `"0"`, the all-`"0"` spec completes
and its container has no entry for the CPU limit nor for the memory request. -/
theorem quantity_defaulting_amended_witness :
    (ParseQuantity "0").isSome = true ∧
    ∃ d c, CreateDeployment sampleEnv ParseQuantity
        (sampleFactory (some (zeroSpec []))) = .ok d ∧
      d.Spec.Template.Spec.Containers = [c] ∧
      c.Resources.Limits.get ResourceCPU = none ∧
      c.Resources.Requests.get ResourceMemory = none := by
  obtain ⟨c, hc, h₁, _, _, h₄⟩ :=
    (quantity_defaulting_amended sampleEnv ParseQuantity (sampleFactory (some (zeroSpec [])))
      (zeroSpec []) rfl (by decide)).2.2 _ rfl
  exact ⟨by decide, _, c, rfl, hc, h₁ rfl, h₄ rfl⟩

/-- The counterexample of C2: without a cached spec `CreateDeployment` completes, and its
container carries none of the four defaults, each of which is a quantity the parser produces.-/
theorem defaulting_completeness_counterexample :
    ∃ d c, CreateDeployment sampleEnv ParseQuantity (sampleFactory none) = .ok d ∧
      d.Spec.Template.Spec.Containers = [c] ∧
      (ParseQuantity "1").isSome = true ∧ (ParseQuantity "1280Mi").isSome = true ∧
      (ParseQuantity "500m").isSome = true ∧ (ParseQuantity "512Mi").isSome = true ∧
      c.Resources.Limits.get ResourceCPU ≠ ParseQuantity "1" ∧
      c.Resources.Limits.get ResourceMemory ≠ ParseQuantity "1280Mi" ∧
      c.Resources.Requests.get ResourceCPU ≠ ParseQuantity "500m" ∧
      c.Resources.Requests.get ResourceMemory ≠ ParseQuantity "512Mi" :=
  ⟨_, _, rfl, rfl, by decide, by decide, by decide, by decide,
   by decide, by decide, by decide, by decide⟩

/-- C2 as amended, the cache miss: with both identity variables set and no cached spec,
`CreateDeployment` completes, and its one container has nil `Limits` and nil `Requests`, so no
entry for any resource name, no volume mounts, and the pod no volumes. -/
theorem CreateDeployment_cache_miss (getenv : String → String) (parse : String → Option Q)
    (this : KubeFactory VS)
    (hv : getenv ENV_REGISTRY_VERSION ≠ "") (ho : getenv ENV_OPERATOR_NAME ≠ "")
    (hspec : this.ctx.GetResourceCache.GetSpec = none) :
    ∃ d c, CreateDeployment getenv parse this = .ok d ∧
      d.Spec.Template.Spec.Containers = [c] ∧
      c.Resources.Limits = none ∧ c.Resources.Requests = none ∧
      (∀ name, c.Resources.Limits.get name = none ∧ c.Resources.Requests.get name = none) ∧
      c.VolumeMounts = [] ∧ d.Spec.Template.Spec.Volumes = [] :=
  ⟨_, _, CreateDeployment_of_ok getenv parse this _ _ (GetLabels_eq getenv this hv ho)
      (resolveSpec_none parse this hspec), rfl, rfl, rfl, fun _ => ⟨rfl, rfl⟩, rfl, rfl⟩

/-- The witness of C2 as amended: the sample factory without a spec. -/
theorem CreateDeployment_cache_miss_witness :
    sampleEnv ENV_REGISTRY_VERSION ≠ "" ∧ sampleEnv ENV_OPERATOR_NAME ≠ "" ∧
    (sampleFactory none).ctx.GetResourceCache.GetSpec = none ∧
    ∃ d c, CreateDeployment sampleEnv ParseQuantity (sampleFactory none) = .ok d ∧
      d.Spec.Template.Spec.Containers = [c] ∧
      c.Resources.Limits = none ∧ c.Resources.Requests = none := by
  obtain ⟨d, c, hd, hc, hl, hr, _⟩ :=
    CreateDeployment_cache_miss sampleEnv ParseQuantity (sampleFactory none)
      (by decide) (by decide) rfl
  exact ⟨by decide, by decide, rfl, d, c, hd, hc, hl, hr⟩

end Claims

end factory
